import Mathlib

/-!
Shallow embedding of the point-cloud library `pcl_rustic_core` (crates
`pcl_rustic_core/src/{transform,point,simple_point_cloud,compact_point_cloud,lib}.rs`).
Floating-point scalars (`f32`/`f64`) are modelled as `ℚ`; the byte channels
(`u8`) and `ring_id` (`u16`) are modelled as `ℕ` (no arithmetic is ever
performed on them, only storage and equality).
-/

/-- A 4x4 matrix of scalars, the payload of `Transform` (`ndarray::Array2`
whose shape is statically 4x4 in the embedding). -/
abbrev Mat4 : Type := Fin 4 → Fin 4 → ℚ

/-- `transform.rs`: a 4x4 homogeneous transform. The shape invariant
(always 4x4) is carried by the type of `mat`. -/
structure Transform where
  mat : Mat4

/-- `transform.rs` `Transform::identity`: `Array2::eye(4)`. -/
def Transform.identity : Transform :=
  ⟨fun i j => if i = j then 1 else 0⟩

/-- `transform.rs` `Transform::from(a: [[T; 4]; 4])`: flattens row-major and
reshapes to (4,4); the `expect` cannot fail since 16 elements always fit the
shape, so in the embedding the construction is total. -/
def Transform.fromRows (a : Fin 4 → Fin 4 → ℚ) : Transform :=
  ⟨a⟩

/-- An `ndarray::Array2<T>` of arbitrary shape: row-major flat data with
explicit dimensions (as handed to the fallible `Transform::from`). -/
structure Array2Q where
  rows : ℕ
  cols : ℕ
  data : List ℚ

/-- `transform.rs` `Transform::from(m: Array2<T>) -> Result<Self, String>`:
succeeds iff the dimension pair is (4,4), otherwise returns the shape error. -/
def Transform.fromArray2 (m : Array2Q) : Except String Transform :=
  if (m.rows, m.cols) = (4, 4) then
    Except.ok ⟨fun i j => ((m.data.get? (i.val * 4 + j.val)).getD 0)⟩
  else
    Except.error "ndarray must be 4x4"

/-- The matrix of a `Transform` read back as a row-major `Array2` (what
`as_ndarray` exposes), used to state the shape invariant. -/
def Transform.toArray2 (t : Transform) : Array2Q :=
  ⟨4, 4, (List.finRange 4).flatMap (fun i => (List.finRange 4).map (fun j => t.mat i j))⟩

/-- `transform.rs` `Transform::apply_to_point(x, y, z: Option<T>)`:
`z` defaults to zero, the homogeneous column `[x, y, z, 1]` is multiplied by
the matrix (`self.mat.dot(&p_arr)`, unrolled), and the first three components
are divided by `w = res[3]` when `w.abs() > T::zero() + T::from(1e-6)`. -/
def Transform.apply_to_point (t : Transform) (x y : ℚ) (z : Option ℚ) : ℚ × ℚ × ℚ :=
  let zv := z.getD 0
  let res : Fin 4 → ℚ := fun i =>
    t.mat i 0 * x + t.mat i 1 * y + t.mat i 2 * zv + t.mat i 3 * 1
  let w := res 3
  if |w| > 0 + 1 / 1000000 then
    (res 0 / w, res 1 / w, res 2 / w)
  else
    (res 0, res 1, res 2)

/-- `transform.rs` `impl Mul for Transform`: `fn mul(self, b2c)` returns
`b2c.mat.dot(&self.mat)` (the matrix product `b2c * self`, unrolled). -/
def Transform.mul (a : Transform) (b2c : Transform) : Transform :=
  ⟨fun i j =>
    b2c.mat i 0 * a.mat 0 j + b2c.mat i 1 * a.mat 1 j +
    b2c.mat i 2 * a.mat 2 j + b2c.mat i 3 * a.mat 3 j⟩

/-- Spec-side reading of §4.2 (claim C1), written from the spec's words, to be
compared with `Transform.apply_to_point`: form the homogeneous vector
`[x, y, z, 1]` (z defaulting to zero when absent), multiply it by the 4x4
matrix (a sum over the row), and divide the first three components by the
weight `w` exactly when `|w|` exceeds the fixed epsilon `1e-6`; otherwise
return the unnormalized components. -/
def applyToPointSpec (t : Transform) (x y : ℚ) (z : Option ℚ) : ℚ × ℚ × ℚ :=
  let v : Fin 4 → ℚ := ![x, y, z.getD 0, 1]
  let res : Fin 4 → ℚ := fun i => ∑ k : Fin 4, t.mat i k * v k
  let w := res 3
  if |w| > 1 / 1000000 then
    (res 0 / w, res 1 / w, res 2 / w)
  else
    (res 0, res 1, res 2)

/-- Claim C1: `apply_to_point` forms `[x, y, z.getD 0, 1]`, multiplies by the
matrix, and normalizes by `w` iff `|w| > 1e-6`; at or below the threshold the
unnormalized components are returned. Stated as agreement between the code
embedding and the spec-worded definition. -/
theorem apply_to_point_matches_spec (t : Transform) (x y : ℚ) (z : Option ℚ) :
    t.apply_to_point x y z = applyToPointSpec t x y z := by
  unfold Transform.apply_to_point applyToPointSpec
  simp [Fin.sum_univ_four, zero_add]

/-- Claim C7: composing with the identity does not change the point map, and
the identity transform maps `(x, y, z)` to itself. -/
theorem compose_identity_apply (t : Transform) (x y z : ℚ) :
    (t.mul Transform.identity).apply_to_point x y (some z) =
      t.apply_to_point x y (some z) ∧
    Transform.identity.apply_to_point x y (some z) = (x, y, z) := by
  constructor
  · have hmat : (t.mul Transform.identity).mat = t.mat := by
      funext i j
      fin_cases i <;>
        simp +decide [Transform.mul, Transform.identity]
    show Transform.apply_to_point ⟨(t.mul Transform.identity).mat⟩ x y (some z) =
      Transform.apply_to_point ⟨t.mat⟩ x y (some z)
    rw [hmat]
  · unfold Transform.apply_to_point Transform.identity
    norm_num
    simp +decide

/-- Claim C6: the fallible constructor `Transform::from(Array2)` succeeds iff
the supplied data is exactly 4x4 (reporting a shape error otherwise, as an
explicit `Except.error`), and every constructed transform's matrix has shape
(4, 4). -/
theorem fromArray2_shape (m : Array2Q) :
    ((∃ t, Transform.fromArray2 m = Except.ok t) ↔ (m.rows = 4 ∧ m.cols = 4)) ∧
    ((m.rows ≠ 4 ∨ m.cols ≠ 4) →
      Transform.fromArray2 m = Except.error "ndarray must be 4x4") ∧
    (∀ t, Transform.fromArray2 m = Except.ok t →
      (t.toArray2.rows, t.toArray2.cols) = (4, 4)) ∧
    ((Transform.identity.toArray2.rows, Transform.identity.toArray2.cols) = (4, 4)) := by
  refine ⟨?_, ?_, ?_, rfl⟩
  · unfold Transform.fromArray2
    by_cases h : (m.rows, m.cols) = (4, 4)
    · have h1 : m.rows = 4 := congrArg Prod.fst h
      have h2 : m.cols = 4 := congrArg Prod.snd h
      simp [h]
      exact ⟨h1, h2⟩
    · simp [h]
      intro hr hc
      exact h (by simp [hr, hc])
  · intro h
    unfold Transform.fromArray2
    have hne : (m.rows, m.cols) ≠ (4, 4) := by
      intro he
      rcases h with h | h <;> simp_all
    simp [hne]
  · intro t _
    rfl

/-- Witness for C6 on concrete shapes: a 2x3 array is rejected with the shape
error, a 4x4 array is accepted. -/
theorem fromArray2_shape_witness :
    Transform.fromArray2 ⟨2, 3, [1, 2, 3, 4, 5, 6]⟩ =
      Except.error "ndarray must be 4x4" ∧
    (∃ t, Transform.fromArray2 ⟨4, 4, List.replicate 16 0⟩ = Except.ok t) := by
  constructor
  · exact (fromArray2_shape ⟨2, 3, [1, 2, 3, 4, 5, 6]⟩).2.1 (Or.inl (by decide))
  · exact ((fromArray2_shape ⟨4, 4, List.replicate 16 0⟩).1).2 ⟨by decide, by decide⟩

/-- `point.rs` `Point`: required `x, y` (`f32`, modelled as `ℚ`), optional
`z`, byte color channels `r g b a` (`u8`, modelled as `ℕ`), optional
`intensity`, `ring_id` (`u16`, modelled as `ℕ`) and `time_offset`. -/
structure Point where
  x : ℚ
  y : ℚ
  z : Option ℚ
  r : Option ℕ
  g : Option ℕ
  b : Option ℕ
  a : Option ℕ
  intensity : Option ℚ
  ring_id : Option ℕ
  time_offset : Option ℚ
deriving DecidableEq

/-- `point.rs` `Point::new_2d`. -/
def Point.new_2d (x y : ℚ) : Point :=
  ⟨x, y, none, none, none, none, none, none, none, none⟩

/-- `point.rs` `Point::new_3d`. -/
def Point.new_3d (x y z : ℚ) : Point :=
  ⟨x, y, some z, none, none, none, none, none, none, none⟩

/-- `point.rs` `Point::with_rgb`. -/
def Point.with_rgb (p : Point) (r g b : ℕ) : Point :=
  { p with r := some r, g := some g, b := some b }

/-- `point.rs` `Point::with_rgba`. -/
def Point.with_rgba (p : Point) (r g b a : ℕ) : Point :=
  { p with r := some r, g := some g, b := some b, a := some a }

/-- `point.rs` `Point::with_intensity`. -/
def Point.with_intensity (p : Point) (intensity : ℚ) : Point :=
  { p with intensity := some intensity }

/-- `point.rs` `Point::is_3d`. -/
def Point.is_3d (p : Point) : Bool :=
  p.z.isSome

/-- `point.rs` `Point::has_color`: requires all of r, g, b. -/
def Point.has_color (p : Point) : Bool :=
  p.r.isSome && p.g.isSome && p.b.isSome

/-- `point.rs` `Point::transform(&self, a2b)`: builds the homogeneous column
`[[x], [y], [z.unwrap_or(0)], [1]]`, multiplies by the 4x4 matrix (the
`a2b.dot` product, unrolled), and returns a point whose `z` is always `Some`
of the third component; no weight normalization happens here. All other
attributes are copied. -/
def Point.transform (p : Point) (a2b : Mat4) : Point :=
  let zv := p.z.getD 0
  { x := a2b 0 0 * p.x + a2b 0 1 * p.y + a2b 0 2 * zv + a2b 0 3 * 1
    y := a2b 1 0 * p.x + a2b 1 1 * p.y + a2b 1 2 * zv + a2b 1 3 * 1
    z := some (a2b 2 0 * p.x + a2b 2 1 * p.y + a2b 2 2 * zv + a2b 2 3 * 1)
    r := p.r
    g := p.g
    b := p.b
    a := p.a
    intensity := p.intensity
    ring_id := p.ring_id
    time_offset := p.time_offset }

/-- `simple_point_cloud.rs` `SimplePointCloud`: one `Point` record per
element. -/
structure SimplePointCloud where
  points : List Point
deriving DecidableEq

/-- `simple_point_cloud.rs` `SimplePointCloud::new`. -/
def SimplePointCloud.new : SimplePointCloud :=
  ⟨[]⟩

/-- `simple_point_cloud.rs` `SimplePointCloud::with_capacity`: the reserved
capacity is not observable in the embedding. -/
def SimplePointCloud.with_capacity (_capacity : ℕ) : SimplePointCloud :=
  ⟨[]⟩

/-- `simple_point_cloud.rs` `SimplePointCloud::add_point`: `Vec::push`. -/
def SimplePointCloud.add_point (pc : SimplePointCloud) (point : Point) : SimplePointCloud :=
  ⟨pc.points ++ [point]⟩

/-- `simple_point_cloud.rs` `SimplePointCloud::clear`: `Vec::clear`. -/
def SimplePointCloud.clear (_pc : SimplePointCloud) : SimplePointCloud :=
  ⟨[]⟩

/-- Modelled from the spec: the `PointCloud` trait (`crate::point_cloud`)
that declares `num_points` is not under src/ (only implementors are); per
§4.3 `numPoints()` returns the number of stored points, which for the row
layout is the record count. -/
def SimplePointCloud.num_points (pc : SimplePointCloud) : ℕ :=
  pc.points.length

/-- `simple_point_cloud.rs` `SimplePointCloud::is_3d`: scans for any point
with a z value. -/
def SimplePointCloud.is_3d (pc : SimplePointCloud) : Bool :=
  pc.points.any (fun p => p.is_3d)

/-- `simple_point_cloud.rs` `SimplePointCloud::has_color`. -/
def SimplePointCloud.has_color (pc : SimplePointCloud) : Bool :=
  pc.points.any (fun p => p.has_color)

/-- `simple_point_cloud.rs` `SimplePointCloud::has_intensity`. -/
def SimplePointCloud.has_intensity (pc : SimplePointCloud) : Bool :=
  pc.points.any (fun p => p.intensity.isSome)

/-- `simple_point_cloud.rs` `SimplePointCloud::has_attribute`. -/
def SimplePointCloud.has_attribute (pc : SimplePointCloud) (attr : String) : Bool :=
  match attr with
  | "x" | "y" => true
  | "z" => pc.is_3d
  | "r" | "g" | "b" | "a" => pc.has_color
  | "intensity" => pc.has_intensity
  | "ring_id" => pc.points.any (fun p => p.ring_id.isSome)
  | "time_offset" => pc.points.any (fun p => p.time_offset.isSome)
  | _ => false

/-- `simple_point_cloud.rs` `SimplePointCloud::transform`: pushes each
transformed point into a fresh container. -/
def SimplePointCloud.transform (pc : SimplePointCloud) (a2b : Mat4) : SimplePointCloud :=
  pc.points.foldl
    (fun out p => out.add_point (p.transform a2b))
    (SimplePointCloud.with_capacity pc.num_points)

/-- `simple_point_cloud.rs` `SimplePointCloud::transform_inplace`: overwrites
every record with its transformed value. -/
def SimplePointCloud.transform_inplace (pc : SimplePointCloud) (a2b : Mat4) : SimplePointCloud :=
  ⟨pc.points.map (fun p => p.transform a2b)⟩

/-- `compact_point_cloud.rs` `CompactPointCloud`: one array per attribute;
`x`/`y` always present, the other columns materialized lazily (`Option`),
plus a map of named extension columns (`HashMap<String, Vec<u8>>`, modelled
as an association list). -/
structure CompactPointCloud where
  x : List ℚ
  y : List ℚ
  z : Option (List ℚ)
  intensity : Option (List ℚ)
  r : Option (List ℕ)
  g : Option (List ℕ)
  b : Option (List ℕ)
  a : Option (List ℕ)
  extra_fields : List (String × List ℕ)
deriving DecidableEq

/-- `compact_point_cloud.rs` `CompactPointCloud::new`. -/
def CompactPointCloud.new : CompactPointCloud :=
  ⟨[], [], none, none, none, none, none, none, []⟩

/-- `compact_point_cloud.rs` `CompactPointCloud::with_capacity`: capacity is
not observable in the embedding. -/
def CompactPointCloud.with_capacity (_capacity : ℕ) : CompactPointCloud :=
  ⟨[], [], none, none, none, none, none, none, []⟩

/-- One optional-column step of `add_point`: if the point carries the value
and the column is missing, materialize it backfilled with the default up to
`x.len() - 1` entries (x already pushed) and push the value; if the column
exists, push the value or the default; if neither, leave absent. `dflt` is
`0.0` resp. `0` in the source. -/
def pushOptCol {α : Type} (newXLen : ℕ) (dflt : α)
    (v : Option α) (col : Option (List α)) : Option (List α) :=
  match v, col with
  | some pv, none => some (List.replicate (newXLen - 1) dflt ++ [pv])
  | some pv, some c => some (c ++ [pv])
  | none, some c => some (c ++ [dflt])
  | none, none => none

/-- `compact_point_cloud.rs` `CompactPointCloud::add_point`: pushes `x` and
`y`, then handles each optional column with the backfill-on-first-use policy;
`extra_fields` is untouched. -/
def CompactPointCloud.add_point (c : CompactPointCloud) (point : Point) : CompactPointCloud :=
  let x := c.x ++ [point.x]
  let y := c.y ++ [point.y]
  { x := x
    y := y
    z := pushOptCol x.length (0 : ℚ) point.z c.z
    intensity := pushOptCol x.length (0 : ℚ) point.intensity c.intensity
    r := pushOptCol x.length (0 : ℕ) point.r c.r
    g := pushOptCol x.length (0 : ℕ) point.g c.g
    b := pushOptCol x.length (0 : ℕ) point.b c.b
    a := pushOptCol x.length (0 : ℕ) point.a c.a
    extra_fields := c.extra_fields }

/-- `compact_point_cloud.rs` `CompactPointCloud::clear`: empties `x`, `y`,
and each materialized column in place (the `Option` wrapper survives), and
clears the extension-field map (`HashMap::clear` removes all entries). -/
def CompactPointCloud.clear (c : CompactPointCloud) : CompactPointCloud :=
  { x := []
    y := []
    z := c.z.map (fun _ => [])
    intensity := c.intensity.map (fun _ => [])
    r := c.r.map (fun _ => [])
    g := c.g.map (fun _ => [])
    b := c.b.map (fun _ => [])
    a := c.a.map (fun _ => [])
    extra_fields := [] }

/-- `compact_point_cloud.rs` `CompactPointCloud::num_points`: `x.len()`. -/
def CompactPointCloud.num_points (c : CompactPointCloud) : ℕ :=
  c.x.length

/-- `compact_point_cloud.rs` `CompactPointCloud::is_3d`: the z column is
materialized. -/
def CompactPointCloud.is_3d (c : CompactPointCloud) : Bool :=
  c.z.isSome

/-- `compact_point_cloud.rs` `CompactPointCloud::has_color`. -/
def CompactPointCloud.has_color (c : CompactPointCloud) : Bool :=
  c.r.isSome && c.g.isSome && c.b.isSome

/-- `compact_point_cloud.rs` `CompactPointCloud::has_intensity`. -/
def CompactPointCloud.has_intensity (c : CompactPointCloud) : Bool :=
  c.intensity.isSome

/-- `compact_point_cloud.rs` `CompactPointCloud::has_attribute`: built-in
names from column presence, anything else from the extension map
(`contains_key`). -/
def CompactPointCloud.has_attribute (c : CompactPointCloud) (attr : String) : Bool :=
  match attr with
  | "x" | "y" => true
  | "z" => c.z.isSome
  | "r" => c.r.isSome
  | "g" => c.g.isSome
  | "b" => c.b.isSome
  | "a" => c.a.isSome
  | "intensity" => c.intensity.isSome
  | _ => c.extra_fields.any (fun kv => kv.1 = attr)

/-- `lib.rs` `Point` (the f64 point used by `TablePointCloud`): required
x, y, z plus an open attribute map (`HashMap<String, f64>`, modelled as an
association list). -/
structure PointF64 where
  x : ℚ
  y : ℚ
  z : ℚ
  attributes : List (String × ℚ)
deriving DecidableEq

/-- `polars` `DataFrame.height()`: the number of rows, i.e. the length of the
first column (0 when the frame has no columns). -/
def dfHeight (cols : List (String × List ℚ)) : ℕ :=
  match cols with
  | [] => 0
  | c :: _ => c.2.length

/-- `polars` `DataFrame::with_column`: replaces the column with the same name
if one exists, otherwise appends the new column at the end. -/
def withColumn (cols : List (String × List ℚ)) (name : String) (vs : List ℚ) :
    List (String × List ℚ) :=
  match cols with
  | [] => [(name, vs)]
  | c :: rest =>
    if c.1 = name then (name, vs) :: rest
    else c :: withColumn rest name vs

/-- `lib.rs` `TablePointCloud`: a DataFrame of named f64 columns. -/
structure TablePointCloud where
  data : List (String × List ℚ)
deriving DecidableEq

/-- `polars` `DataFrame::column(name)`: the column with that name, if any. -/
def TablePointCloud.getColumn (pc : TablePointCloud) (name : String) : Option (List ℚ) :=
  (pc.data.find? (fun c => c.1 == name)).map (fun c => c.2)

/-- `lib.rs` `TablePointCloud::new`: empty x, y, z columns. -/
def TablePointCloud.new : TablePointCloud :=
  ⟨[("x", []), ("y", []), ("z", [])]⟩

/-- `lib.rs` `TablePointCloud::from_xyz`: fails with a shape-mismatch error
when the three vectors differ in length. -/
def TablePointCloud.from_xyz (x y z : List ℚ) : Except String TablePointCloud :=
  if x.length ≠ y.length ∨ y.length ≠ z.length then
    Except.error "x, y, z vectors must have the same length"
  else
    Except.ok ⟨[("x", x), ("y", y), ("z", z)]⟩

/-- `lib.rs` `TablePointCloud::len`: `data.height()`. -/
def TablePointCloud.len (pc : TablePointCloud) : ℕ :=
  dfHeight pc.data

/-- `lib.rs` `TablePointCloud::add_attribute(&mut self, name, values)`:
returns the resulting container state together with the call's result;
when `values.len() != self.len()` it reports a shape-mismatch error before
touching the data, otherwise it installs the column via `with_column`. -/
def TablePointCloud.add_attribute (pc : TablePointCloud) (name : String)
    (values : List ℚ) : TablePointCloud × Except String Unit :=
  if values.length ≠ pc.len then
    (pc, Except.error "Attribute length does not match point cloud length")
  else
    (⟨withColumn pc.data name values⟩, Except.ok ())

/-- `lib.rs` `TablePointCloud::get_point(index)`: out-of-range indices are
rejected with an out-of-bounds error; otherwise x, y, z entries are read
(defaulting to 0 like `unwrap_or(0.0)`), and every other column contributes
an attribute when it has a value at the index (the source additionally skips
NaN values, which have no counterpart in `ℚ`). -/
def TablePointCloud.get_point (pc : TablePointCloud) (index : ℕ) :
    Except String PointF64 :=
  if index ≥ pc.len then
    Except.error "Index out of bounds"
  else
    match pc.getColumn "x", pc.getColumn "y", pc.getColumn "z" with
    | some xs, some ys, some zs =>
      Except.ok
        { x := (xs.get? index).getD 0
          y := (ys.get? index).getD 0
          z := (zs.get? index).getD 0
          attributes := pc.data.filterMap (fun c =>
            if c.1 = "x" ∨ c.1 = "y" ∨ c.1 = "z" then none
            else (c.2.get? index).map (fun v => (c.1, v))) }
    | _, _, _ => Except.error "column not found"

/-- `Option.map` does not change presence; used for the `clear` schema
lemmas. -/
theorem optMap_isSome {α β : Type} (f : α → β) (o : Option α) :
    (o.map f).isSome = o.isSome := by
  cases o <;> rfl

/-- Counterexample to claim C2 as stated: on the row layout, `clear` on a
reachable container holding one 3D point flips `is_3d` (and
`has_attribute "z"`) from true to false, so the schema queries do not report
the same set as before the call. -/
theorem clear_changes_row_layout_schema :
    (SimplePointCloud.new.add_point (Point.new_3d 1 2 3)).is_3d = true ∧
    (SimplePointCloud.new.add_point (Point.new_3d 1 2 3)).has_attribute "z" = true ∧
    ((SimplePointCloud.new.add_point (Point.new_3d 1 2 3)).clear).is_3d = false ∧
    ((SimplePointCloud.new.add_point (Point.new_3d 1 2 3)).clear).has_attribute "z" = false ∧
    ((SimplePointCloud.new.add_point (Point.new_3d 1 2 3)).clear).num_points = 0 := by
  refine ⟨rfl, rfl, rfl, rfl, rfl⟩

/-- Claim C2 amended: on the column layout, `clear` zeroes the length and
preserves every built-in schema query (the `Option` column wrappers survive),
while the extension-field map is emptied; on the row layout, `clear` zeroes
the length but the scan-based schema queries subsequently report every
optional attribute absent. -/
theorem clear_preserves_column_schema :
    (∀ c : CompactPointCloud,
      c.clear.num_points = 0 ∧
      c.clear.is_3d = c.is_3d ∧
      c.clear.has_color = c.has_color ∧
      c.clear.has_intensity = c.has_intensity ∧
      c.clear.has_attribute "x" = c.has_attribute "x" ∧
      c.clear.has_attribute "y" = c.has_attribute "y" ∧
      c.clear.has_attribute "z" = c.has_attribute "z" ∧
      c.clear.has_attribute "r" = c.has_attribute "r" ∧
      c.clear.has_attribute "g" = c.has_attribute "g" ∧
      c.clear.has_attribute "b" = c.has_attribute "b" ∧
      c.clear.has_attribute "a" = c.has_attribute "a" ∧
      c.clear.has_attribute "intensity" = c.has_attribute "intensity" ∧
      c.clear.extra_fields = []) ∧
    (∀ pc : SimplePointCloud,
      pc.clear.num_points = 0 ∧
      pc.clear.is_3d = false ∧
      pc.clear.has_color = false ∧
      pc.clear.has_intensity = false) := by
  refine ⟨fun c => ?_, fun pc => ⟨rfl, rfl, rfl, rfl⟩⟩
  refine ⟨rfl, ?_, ?_, ?_, rfl, rfl, ?_, ?_, ?_, ?_, ?_, ?_, rfl⟩ <;>
    simp [CompactPointCloud.clear, CompactPointCloud.is_3d, CompactPointCloud.has_color,
      CompactPointCloud.has_intensity, CompactPointCloud.has_attribute, optMap_isSome]

/-- Claim C3: the column layout answers `is_3d` from z-column presence, the
row layout by scanning for any point with a z value; after adding one 3D
point and clearing, the two layouts answer differently. -/
theorem is_3d_layout_semantics :
    (∀ c : CompactPointCloud, (c.is_3d = true ↔ c.z ≠ none)) ∧
    (∀ pc : SimplePointCloud, (pc.is_3d = true ↔ ∃ p ∈ pc.points, p.z ≠ none)) ∧
    ((CompactPointCloud.new.add_point (Point.new_3d 1 2 3)).clear.is_3d = true) ∧
    ((SimplePointCloud.new.add_point (Point.new_3d 1 2 3)).clear.is_3d = false) := by
  refine ⟨fun c => ?_, fun pc => ?_, rfl, rfl⟩
  · simp [CompactPointCloud.is_3d, Option.isSome_iff_ne_none]
  · simp [SimplePointCloud.is_3d, List.any_eq_true, Point.is_3d, Option.isSome_iff_ne_none]

/-- The points of a `SimplePointCloud::transform` fold: the accumulator's
records followed by the transformed inputs. -/
theorem foldl_add_point_points (ps : List Point) (acc : SimplePointCloud) (m : Mat4) :
    (ps.foldl (fun out p => out.add_point (p.transform m)) acc).points =
      acc.points ++ ps.map (fun p => p.transform m) := by
  induction ps generalizing acc with
  | nil => simp
  | cons q qs ih =>
    rw [List.foldl_cons, ih]
    simp [SimplePointCloud.add_point]

/-- Claim C10: `Point::transform` always produces a point whose z is present,
so transforming a nonempty row-layout cloud (out of place or in place) makes
`is_3d` true even when no caller supplied a z value. -/
theorem transform_forces_z_present :
    (∀ (p : Point) (m : Mat4), (p.transform m).z.isSome = true) ∧
    (∀ (pc : SimplePointCloud) (m : Mat4), pc.points ≠ [] →
      (pc.transform m).is_3d = true ∧ (pc.transform_inplace m).is_3d = true) := by
  refine ⟨fun p m => rfl, fun pc m h => ?_⟩
  obtain ⟨q, qs, hq⟩ := List.exists_cons_of_ne_nil h
  constructor
  · simp only [SimplePointCloud.transform, SimplePointCloud.is_3d,
      foldl_add_point_points, SimplePointCloud.with_capacity, hq]
    simp [Point.is_3d, Point.transform]
  · simp [SimplePointCloud.transform_inplace, SimplePointCloud.is_3d, hq,
      Point.is_3d, Point.transform]

/-- Witness for C10: a cloud holding a single 2D point reports `is_3d = true`
after either transform, with the zero matrix. -/
theorem transform_forces_z_present_witness :
    ((SimplePointCloud.new.add_point (Point.new_2d 1 2)).transform
      (fun _ _ => 0)).is_3d = true ∧
    ((SimplePointCloud.new.add_point (Point.new_2d 1 2)).transform_inplace
      (fun _ _ => 0)).is_3d = true :=
  transform_forces_z_present.2
    (SimplePointCloud.new.add_point (Point.new_2d 1 2)) (fun _ _ => 0) (by decide)

/-- A materialized column has exactly `n` entries; an absent column is
trivially synchronized. -/
def colOk {α : Type} (o : Option (List α)) (n : ℕ) : Bool :=
  match o with
  | none => true
  | some l => l.length == n

/-- Every column of a `CompactPointCloud` that exists has length `n` (the
container's point count). -/
def synced (c : CompactPointCloud) (n : ℕ) : Bool :=
  (c.x.length == n) && (c.y.length == n) && colOk c.z n && colOk c.intensity n &&
    colOk c.r n && colOk c.g n && colOk c.b n && colOk c.a n

/-- A sequence of `add_point` calls on a fresh column-layout container. -/
def addPoints (ps : List Point) : CompactPointCloud :=
  ps.foldl (fun c p => c.add_point p) CompactPointCloud.new

/-- One optional-column step keeps the column synchronized at the new
length. -/
theorem pushOptCol_colOk {α : Type} (dflt : α) (v : Option α)
    (col : Option (List α)) (n : ℕ) (h : colOk col n = true) :
    colOk (pushOptCol (n + 1) dflt v col) (n + 1) = true := by
  cases v <;> cases col <;>
    simp [pushOptCol, colOk] at h ⊢ <;> omega

/-- `add_point` preserves column synchronization, bumping the length by
one. -/
theorem add_point_synced (c : CompactPointCloud) (p : Point) (n : ℕ)
    (h : synced c n = true) : synced (c.add_point p) (n + 1) = true := by
  unfold synced at h
  simp only [Bool.and_eq_true, beq_iff_eq] at h
  obtain ⟨⟨⟨⟨⟨⟨⟨hx, hy⟩, hz⟩, hi⟩, hr⟩, hg⟩, hb⟩, ha⟩ := h
  have hlen : (c.x ++ [p.x]).length = n + 1 := by simp [hx]
  unfold CompactPointCloud.add_point synced
  simp only [Bool.and_eq_true, beq_iff_eq]
  refine ⟨⟨⟨⟨⟨⟨⟨hlen, by simp [hy]⟩, ?_⟩, ?_⟩, ?_⟩, ?_⟩, ?_⟩, ?_⟩ <;>
    rw [hlen]
  · exact pushOptCol_colOk _ _ _ _ hz
  · exact pushOptCol_colOk _ _ _ _ hi
  · exact pushOptCol_colOk _ _ _ _ hr
  · exact pushOptCol_colOk _ _ _ _ hg
  · exact pushOptCol_colOk _ _ _ _ hb
  · exact pushOptCol_colOk _ _ _ _ ha

/-- Column synchronization holds along any `add_point` fold. -/
theorem foldl_add_point_synced (ps : List Point) (c : CompactPointCloud) (n : ℕ)
    (h : synced c n = true) :
    synced (ps.foldl (fun c p => c.add_point p) c) (n + ps.length) = true := by
  induction ps generalizing c n with
  | nil => simpa using h
  | cons q qs ih =>
    rw [List.foldl_cons, List.length_cons,
      show n + (qs.length + 1) = (n + 1) + qs.length by omega]
    exact ih (c.add_point q) (n + 1) (add_point_synced c q n h)

/-- Claim C4: after N `add_point` calls on a fresh `CompactPointCloud`,
every materialized column has length exactly N and `num_points` returns N. -/
theorem add_point_column_lengths (ps : List Point) :
    synced (addPoints ps) ps.length = true ∧
    (addPoints ps).num_points = ps.length := by
  have h : synced (addPoints ps) (0 + ps.length) = true :=
    foldl_add_point_synced ps CompactPointCloud.new 0 (by decide)
  rw [Nat.zero_add] at h
  refine ⟨h, ?_⟩
  unfold synced at h
  simp only [Bool.and_eq_true, beq_iff_eq] at h
  exact h.1.1.1.1.1.1.1

/-- Claim C5: adding a colorless point to an empty column-layout container
and then a colored point yields r/g/b columns `[0, value]` — length 2, the
first row the documented default 0, the second row the supplied channel. -/
theorem color_backfill (p1 p2 : Point) (rv gv bv : ℕ)
    (h1r : p1.r = none) (h1g : p1.g = none) (h1b : p1.b = none)
    (h2r : p2.r = some rv) (h2g : p2.g = some gv) (h2b : p2.b = some bv) :
    ((CompactPointCloud.new.add_point p1).add_point p2).r = some [0, rv] ∧
    ((CompactPointCloud.new.add_point p1).add_point p2).g = some [0, gv] ∧
    ((CompactPointCloud.new.add_point p1).add_point p2).b = some [0, bv] := by
  simp [CompactPointCloud.add_point, CompactPointCloud.new, pushOptCol,
    h1r, h1g, h1b, h2r, h2g, h2b, List.replicate]

/-- Witness for C5: the concrete two-point scenario with channels (9, 8, 7). -/
theorem color_backfill_witness :
    ((CompactPointCloud.new.add_point (Point.new_2d 0 0)).add_point
        ((Point.new_2d 1 1).with_rgb 9 8 7)).r = some [0, 9] ∧
    ((CompactPointCloud.new.add_point (Point.new_2d 0 0)).add_point
        ((Point.new_2d 1 1).with_rgb 9 8 7)).g = some [0, 8] ∧
    ((CompactPointCloud.new.add_point (Point.new_2d 0 0)).add_point
        ((Point.new_2d 1 1).with_rgb 9 8 7)).b = some [0, 7] :=
  color_backfill (Point.new_2d 0 0) ((Point.new_2d 1 1).with_rgb 9 8 7)
    9 8 7 rfl rfl rfl rfl rfl rfl

/-- `with_column` installs the named column: looking it up afterwards yields
the supplied values (replace when present, append otherwise). -/
theorem find_withColumn (cols : List (String × List ℚ)) (name : String)
    (vs : List ℚ) :
    (withColumn cols name vs).find? (fun c => c.1 == name) = some (name, vs) := by
  induction cols with
  | nil => simp [withColumn]
  | cons c rest ih =>
    by_cases h : c.1 = name
    · simp [withColumn, h]
    · simp only [withColumn, if_neg h]
      rw [List.find?_cons_of_neg _ (by simp [h]), ih]

/-- Claim C8: `add_attribute` on a container of length L with a value array
of a different length fails with the schema-mismatch error and leaves the
stored columns untouched; with matching lengths it succeeds and installs the
column. -/
theorem add_attribute_length_check (pc : TablePointCloud) (name : String)
    (values : List ℚ) :
    (values.length ≠ pc.len →
      pc.add_attribute name values =
        (pc, Except.error "Attribute length does not match point cloud length")) ∧
    (values.length = pc.len →
      (pc.add_attribute name values).2 = Except.ok () ∧
      (pc.add_attribute name values).1.getColumn name = some values) := by
  constructor
  · intro h
    simp [TablePointCloud.add_attribute, h]
  · intro h
    simp [TablePointCloud.add_attribute, h, TablePointCloud.getColumn, find_withColumn]

/-- Witness for C8: on the fresh (length 0) container, a one-element column
is rejected and the container is returned untouched, an empty column is
accepted. -/
theorem add_attribute_length_check_witness :
    TablePointCloud.new.add_attribute "intensity" [1] =
      (TablePointCloud.new,
        Except.error "Attribute length does not match point cloud length") ∧
    (TablePointCloud.new.add_attribute "intensity" []).2 = Except.ok () := by
  refine ⟨(add_attribute_length_check TablePointCloud.new "intensity" [1]).1 (by decide),
    ((add_attribute_length_check TablePointCloud.new "intensity" []).2 (by decide)).1⟩

/-- The container has the three coordinate columns every construction path
creates (`new`, `from_xyz`, `from_points` all install x, y, z). -/
def hasXYZ (pc : TablePointCloud) : Bool :=
  (pc.getColumn "x").isSome && (pc.getColumn "y").isSome && (pc.getColumn "z").isSome

/-- Claim C9: on a container of length N (with its coordinate columns
present), `get_point` returns an explicit out-of-bounds error value for every
index `i >= N` and a point for every `i < N`. -/
theorem get_point_bounds (pc : TablePointCloud) (i : ℕ)
    (hxyz : hasXYZ pc = true) :
    (i < pc.len → ∃ p, pc.get_point i = Except.ok p) ∧
    (pc.len ≤ i → ∃ msg, pc.get_point i = Except.error msg) := by
  constructor
  · intro hlt
    unfold TablePointCloud.get_point
    rw [if_neg (by omega)]
    simp only [hasXYZ, Bool.and_eq_true] at hxyz
    obtain ⟨⟨hx, hy⟩, hz⟩ := hxyz
    obtain ⟨xs, hxs⟩ := Option.isSome_iff_exists.mp hx
    obtain ⟨ys, hys⟩ := Option.isSome_iff_exists.mp hy
    obtain ⟨zs, hzs⟩ := Option.isSome_iff_exists.mp hz
    rw [hxs, hys, hzs]
    exact ⟨_, rfl⟩
  · intro hge
    unfold TablePointCloud.get_point
    rw [if_pos (by omega)]
    exact ⟨_, rfl⟩

/-- Witness for C9 on a length-2 container: index 2 is rejected, index 0
yields a point. -/
theorem get_point_bounds_witness :
    (∃ p, (⟨[("x", [1, 2]), ("y", [3, 4]), ("z", [5, 6])]⟩ :
      TablePointCloud).get_point 0 = Except.ok p) ∧
    (∃ msg, (⟨[("x", [1, 2]), ("y", [3, 4]), ("z", [5, 6])]⟩ :
      TablePointCloud).get_point 2 = Except.error msg) := by
  refine ⟨(get_point_bounds _ 0 (by decide)).1 (by decide),
    (get_point_bounds _ 2 (by decide)).2 (by decide)⟩
